import Mathlib

/-!
Shallow embedding of the deploy helper script `src/push.py` and of the
stricter "Variant C" deploy script described by the specification.

The script is a straight line of external-command invocations driven by the
`duct` library:

* `os.chdir(str(here))` where `here = Path(__file__).parent`;
* `cmd("git", "status", "--porcelain").read()` — `duct`'s `read` captures
  stdout, strips trailing newline characters, and raises `StatusError` on a
  nonzero exit status;
* on non-empty captured status output: `print("repo isn't clean")` and
  `return 1`;
* `cmd("git", "push", "origin", "master").run()` — raises `StatusError` on a
  nonzero exit status;
* `cmd("ssh", "jacko@jacko.io", <fixed command string>).run()` — likewise.

An uncaught `StatusError` terminates the Python interpreter with process
exit status 1 (the traceback goes to stderr, not stdout).  On the success
path `main` returns `None` and `sys.exit(None)` yields exit status 0.

The embedding makes the interaction with the outside world explicit: a
`World` is an oracle mapping a working directory and an argv to the captured
stdout and the exit status of that command, and a run produces a trace of
events (directory changes and command invocations), the lines printed to
stdout, and the final process exit code.
-/

namespace Push

/-- Events observable in one run of the script: a change of the process
working directory, or the invocation of one external command (given by its
argv) in a given working directory. -/
inductive Event where
  | chdir (dir : String)
  | exec (cwd : String) (argv : List String)
  deriving DecidableEq

/-- argv of the working-tree status query, `git status --porcelain`
(push.py line 21). -/
def statusArgv : List String := ["git", "status", "--porcelain"]

/-- argv of the push step, `git push origin master` (push.py line 26). -/
def pushArgv : List String := ["git", "push", "origin", "master"]

/-- The fixed command string executed on the remote host (push.py line 31):
change to the fixed remote directory, fast-forward-only pull, dependency
resync with caching disabled, release-mode build-and-run. -/
def remoteCommand : String :=
  "cd /srv/jacko.io && git pull --ff-only && peru sync --no-cache && (cd render_posts && cargo run --release)"

/-- argv of the remote-command-channel step, `ssh jacko@jacko.io <command>`
(push.py lines 28-32). -/
def sshArgv : List String := ["ssh", "jacko@jacko.io", remoteCommand]

/-- Strip all trailing newline characters from a string, as `duct`'s
`read()` does to captured stdout before returning it. -/
def rstripNewlines (s : String) : String :=
  String.mk ((s.data.reverse.dropWhile (fun ch => ch == '\n')).reverse)

/-- The outside world, as the script sees it: for a working directory and an
argv, the captured stdout text and the exit status of running that command
there. -/
structure World where
  exec : String → List String → String × Nat

/-- The observable outcome of one run: the trace of events, the lines
printed to standard output, and the process exit code. -/
structure RunResult where
  trace : List Event
  output : List String
  exitCode : Nat
  deriving DecidableEq

set_option linter.unusedVariables false in
/-- The embedding of `main` in push.py, parameterized by the world `w`, the
directory `scriptDir` containing the script (`here = Path(__file__).parent`)
and the working directory `initialCwd` the process was started in.

The first action is `os.chdir(str(here))`; every external command after it
therefore runs in `scriptDir`, and `initialCwd` plays no further role.  A
command invoked through `duct`'s `read()`/`run()` that exits nonzero raises
`StatusError`; uncaught, it ends the interpreter with exit status 1. -/
def main (w : World) (scriptDir initialCwd : String) : RunResult :=
  let cwd := scriptDir
  let t1 : List Event := [Event.chdir scriptDir, Event.exec cwd statusArgv]
  let s := w.exec cwd statusArgv
  if s.2 ≠ 0 then
    { trace := t1, output := [], exitCode := 1 }
  else if rstripNewlines s.1 ≠ "" then
    { trace := t1, output := ["repo isn't clean"], exitCode := 1 }
  else
    let p := w.exec cwd pushArgv
    let t2 := t1 ++ [Event.exec cwd pushArgv]
    if p.2 ≠ 0 then
      { trace := t2, output := [], exitCode := 1 }
    else
      let r := w.exec cwd sshArgv
      let t3 := t2 ++ [Event.exec cwd sshArgv]
      if r.2 ≠ 0 then
        { trace := t3, output := [], exitCode := 1 }
      else
        { trace := t3, output := [], exitCode := 0 }

/-- Whether an event is an invocation of the push command. -/
def Event.isPush : Event → Bool
  | .exec _ argv => argv == pushArgv
  | .chdir _ => false

/-- Whether an event opens the remote-command channel (an `ssh` invocation). -/
def Event.isSsh : Event → Bool
  | .exec _ argv => argv.head? == some "ssh"
  | .chdir _ => false

/-- A concrete world for evaluating runs: the status query returns
`statusOut` with exit status `statusCode`, the push command exits with
`pushCode`, and every other command (the ssh step) exits with `sshCode`. -/
def mkWorld (statusOut : String) (statusCode pushCode sshCode : Nat) : World :=
  { exec := fun _ argv =>
      if argv = statusArgv then (statusOut, statusCode)
      else if argv = pushArgv then ("", pushCode)
      else ("", sshCode) }

/-- Modelled from the spec: argv of the fetch step of Variant C, whose
script is not present under `src/` (only the Variant A script `push.py` is).
The spec describes it as "Fetch latest remote refs (no output captured;
failure propagates)". -/
def fetchArgv : List String := ["git", "fetch"]

/-- Modelled from the spec: argv of Variant C's unpushed-commit query, "a
log/diff-style query restricted to the range origin/master..HEAD" whose
empty output means "nothing unpushed". -/
def logRangeArgv : List String := ["git", "log", "origin/master..HEAD"]

/-- Modelled from the spec: Variant C's fixed remote command, "a minimal
remote update: change directory, fast-forward-only pull", with no remote
build step. -/
def remoteCommandC : String := "cd /srv/jacko.io && git pull --ff-only"

/-- Modelled from the spec: argv of Variant C's remote-command-channel step,
to the same fixed host identity. -/
def sshArgvC : List String := ["ssh", "jacko@jacko.io", remoteCommandC]

set_option linter.unusedVariables false in
/-- Modelled from the spec: the Variant C script is not present under
`src/`, so its `main` is embedded from spec section 4.1: working-tree
cleanliness check (abort with exit 1 and diagnostic if dirty), fetch
(failure propagates), unpushed-commit range query (if non-empty, emit
"unpushed commits" and return exit code 1 without contacting the remote
host), and only then the remote-command channel with the minimal update
command.  Command failures propagate the same way as in Variant A. -/
def mainC (w : World) (scriptDir initialCwd : String) : RunResult :=
  let cwd := scriptDir
  let t1 : List Event := [Event.chdir scriptDir, Event.exec cwd statusArgv]
  let s := w.exec cwd statusArgv
  if s.2 ≠ 0 then
    { trace := t1, output := [], exitCode := 1 }
  else if rstripNewlines s.1 ≠ "" then
    { trace := t1, output := ["repo isn't clean"], exitCode := 1 }
  else
    let f := w.exec cwd fetchArgv
    let t2 := t1 ++ [Event.exec cwd fetchArgv]
    if f.2 ≠ 0 then
      { trace := t2, output := [], exitCode := 1 }
    else
      let l := w.exec cwd logRangeArgv
      let t3 := t2 ++ [Event.exec cwd logRangeArgv]
      if l.2 ≠ 0 then
        { trace := t3, output := [], exitCode := 1 }
      else if rstripNewlines l.1 ≠ "" then
        { trace := t3, output := ["unpushed commits"], exitCode := 1 }
      else
        let r := w.exec cwd sshArgvC
        let t4 := t3 ++ [Event.exec cwd sshArgvC]
        if r.2 ≠ 0 then
          { trace := t4, output := [], exitCode := 1 }
        else
          { trace := t4, output := [], exitCode := 0 }

/-- A concrete world for evaluating Variant C runs: status, fetch and the
range query succeed, returning `statusOut` and `logOut`, and every other
command (the ssh step) exits with `remoteCode`. -/
def mkWorldC (statusOut logOut : String) (remoteCode : Nat) : World :=
  { exec := fun _ argv =>
      if argv = statusArgv then (statusOut, 0)
      else if argv = fetchArgv then ("", 0)
      else if argv = logRangeArgv then (logOut, 0)
      else ("", remoteCode) }

section BranchLemmas

variable (w : World) (d c : String)

/-- On a clean-and-successful status query followed by a dirty verdict, the
run is the two-event trace with the diagnostic and exit code 1. -/
theorem main_eq_of_dirty (hok : (w.exec d statusArgv).2 = 0)
    (hdirty : rstripNewlines (w.exec d statusArgv).1 ≠ "") :
    main w d c =
      { trace := [Event.chdir d, Event.exec d statusArgv],
        output := ["repo isn't clean"], exitCode := 1 } := by
  simp [main, hok, hdirty]

/-- When the status query itself exits nonzero, the run aborts with exit
code 1 after the status invocation. -/
theorem main_eq_of_status_fail (hfail : (w.exec d statusArgv).2 ≠ 0) :
    main w d c =
      { trace := [Event.chdir d, Event.exec d statusArgv],
        output := [], exitCode := 1 } := by
  simp [main, hfail]

/-- On a clean tree, when the push command exits nonzero, the run aborts
with exit code 1 after the push invocation. -/
theorem main_eq_of_push_fail (hok : (w.exec d statusArgv).2 = 0)
    (hclean : rstripNewlines (w.exec d statusArgv).1 = "")
    (hpf : (w.exec d pushArgv).2 ≠ 0) :
    main w d c =
      { trace := [Event.chdir d, Event.exec d statusArgv, Event.exec d pushArgv],
        output := [], exitCode := 1 } := by
  simp [main, hok, hclean, hpf]

/-- On a clean tree with a successful push, the run invokes the remote step
and exits 0 or 1 according to the remote command's exit status. -/
theorem main_eq_of_push_ok (hok : (w.exec d statusArgv).2 = 0)
    (hclean : rstripNewlines (w.exec d statusArgv).1 = "")
    (hp : (w.exec d pushArgv).2 = 0) :
    main w d c =
      { trace := [Event.chdir d, Event.exec d statusArgv, Event.exec d pushArgv,
          Event.exec d sshArgv],
        output := [],
        exitCode := if (w.exec d sshArgv).2 ≠ 0 then 1 else 0 } := by
  by_cases hr : (w.exec d sshArgv).2 = 0 <;> simp [main, hok, hclean, hp, hr]

/-- If the remote-command channel was opened in a run, then the status
query succeeded with empty stripped output and the push command exited 0. -/
theorem ssh_invoked_preconditions
    (hinv : Event.exec d sshArgv ∈ (main w d c).trace) :
    (w.exec d statusArgv).2 = 0 ∧ rstripNewlines (w.exec d statusArgv).1 = "" ∧
    (w.exec d pushArgv).2 = 0 := by
  by_cases hok : (w.exec d statusArgv).2 = 0
  · by_cases hclean : rstripNewlines (w.exec d statusArgv).1 = ""
    · by_cases hp : (w.exec d pushArgv).2 = 0
      · exact ⟨hok, hclean, hp⟩
      · rw [main_eq_of_push_fail w d c hok hclean hp] at hinv
        simp [statusArgv, pushArgv, sshArgv] at hinv
    · rw [main_eq_of_dirty w d c hok hclean] at hinv
      simp [statusArgv, sshArgv] at hinv
  · rw [main_eq_of_status_fail w d c hok] at hinv
    simp [statusArgv, sshArgv] at hinv

end BranchLemmas

/-- C1: a status query that yields non-empty captured output makes `main`
print "repo isn't clean" to standard output and return exit code 1, and
neither the push command nor the remote-command channel is invoked in that
run. -/
theorem c1_dirty_tree_aborts (w : World) (d c : String)
    (hok : (w.exec d statusArgv).2 = 0)
    (hdirty : rstripNewlines (w.exec d statusArgv).1 ≠ "") :
    (main w d c).output = ["repo isn't clean"] ∧
    (main w d c).exitCode = 1 ∧
    ∀ e ∈ (main w d c).trace, e.isPush = false ∧ e.isSsh = false := by
  rw [main_eq_of_dirty w d c hok hdirty]
  refine ⟨rfl, rfl, ?_⟩
  intro e he
  simp only [List.mem_cons, List.not_mem_nil, or_false] at he
  rcases he with rfl | rfl
  · exact ⟨rfl, rfl⟩
  · exact ⟨rfl, rfl⟩

/-- Witness for C1 at a concrete world with status output " M file.txt\n". -/
theorem c1_dirty_tree_aborts_witness :
    (main (mkWorld " M file.txt\n" 0 0 0) "/repo" "/home").output = ["repo isn't clean"] ∧
    (main (mkWorld " M file.txt\n" 0 0 0) "/repo" "/home").exitCode = 1 ∧
    ∀ e ∈ (main (mkWorld " M file.txt\n" 0 0 0) "/repo" "/home").trace,
      e.isPush = false ∧ e.isSsh = false :=
  c1_dirty_tree_aborts (mkWorld " M file.txt\n" 0 0 0) "/repo" "/home"
    (by decide) (by decide)

/-- C2 counterexample: the claim asserts that on every empty-status run the
remote-command channel is invoked after the push, but in a run where the
push command exits 2 the push is invoked and the remote channel never is. -/
theorem c2_counterexample :
    rstripNewlines ((mkWorld "" 0 2 0).exec "/repo" statusArgv).1 = "" ∧
    ((mkWorld "" 0 2 0).exec "/repo" statusArgv).2 = 0 ∧
    Event.exec "/repo" pushArgv ∈ (main (mkWorld "" 0 2 0) "/repo" "/home").trace ∧
    ∀ e ∈ (main (mkWorld "" 0 2 0) "/repo" "/home").trace, e.isSsh = false := by
  decide

/-- C2 (amended): on every run whose status query succeeds with empty
captured output, the push command is invoked; the remote-command channel is
invoked exactly when the push succeeds, and then strictly after the push
invocation — the trace is the fixed sequence chdir, status, push, and then
(only on push success) the ssh step, so the reverse order never occurs. -/
theorem c2_push_then_remote (w : World) (d c : String)
    (hok : (w.exec d statusArgv).2 = 0)
    (hclean : rstripNewlines (w.exec d statusArgv).1 = "") :
    ∃ rest,
      (main w d c).trace =
        [Event.chdir d, Event.exec d statusArgv, Event.exec d pushArgv] ++ rest ∧
      ((w.exec d pushArgv).2 = 0 → rest = [Event.exec d sshArgv]) ∧
      ((w.exec d pushArgv).2 ≠ 0 → rest = []) := by
  by_cases hp : (w.exec d pushArgv).2 = 0
  · refine ⟨[Event.exec d sshArgv], ?_, fun _ => rfl, fun h => absurd hp h⟩
    rw [main_eq_of_push_ok w d c hok hclean hp]
    simp
  · refine ⟨[], ?_, fun h => absurd h hp, fun _ => rfl⟩
    rw [main_eq_of_push_fail w d c hok hclean hp]
    simp

/-- Witness for the amended C2 at a concrete world where everything
succeeds. -/
theorem c2_push_then_remote_witness :
    ∃ rest,
      (main (mkWorld "" 0 0 0) "/repo" "/home").trace =
        [Event.chdir "/repo", Event.exec "/repo" statusArgv,
          Event.exec "/repo" pushArgv] ++ rest ∧
      (((mkWorld "" 0 0 0).exec "/repo" pushArgv).2 = 0 →
        rest = [Event.exec "/repo" sshArgv]) ∧
      (((mkWorld "" 0 0 0).exec "/repo" pushArgv).2 ≠ 0 → rest = []) :=
  c2_push_then_remote (mkWorld "" 0 0 0) "/repo" "/home" (by decide) (by decide)

/-- C3: in every run in which the push command is invoked and exits nonzero,
the remote-command channel is never opened and the tool terminates with a
nonzero exit status. -/
theorem c3_push_fail_no_remote (w : World) (d c : String)
    (hinv : Event.exec d pushArgv ∈ (main w d c).trace)
    (hfail : (w.exec d pushArgv).2 ≠ 0) :
    (∀ e ∈ (main w d c).trace, e.isSsh = false) ∧ (main w d c).exitCode ≠ 0 := by
  by_cases hok : (w.exec d statusArgv).2 = 0
  · by_cases hclean : rstripNewlines (w.exec d statusArgv).1 = ""
    · rw [main_eq_of_push_fail w d c hok hclean hfail]
      refine ⟨?_, by simp⟩
      intro e he
      simp only [List.mem_cons, List.not_mem_nil, or_false] at he
      rcases he with rfl | rfl | rfl <;> rfl
    · rw [main_eq_of_dirty w d c hok hclean] at hinv
      simp only [List.mem_cons, List.not_mem_nil, or_false] at hinv
      rcases hinv with h | h
      · exact absurd h (by simp)
      · exact absurd h (by simp [statusArgv, pushArgv])
  · rw [main_eq_of_status_fail w d c hok] at hinv
    simp only [List.mem_cons, List.not_mem_nil, or_false] at hinv
    rcases hinv with h | h
    · exact absurd h (by simp)
    · exact absurd h (by simp [statusArgv, pushArgv])

/-- Witness for C3 at a concrete world where the push command exits 2. -/
theorem c3_push_fail_no_remote_witness :
    (∀ e ∈ (main (mkWorld "" 0 2 0) "/repo" "/home").trace, e.isSsh = false) ∧
    (main (mkWorld "" 0 2 0) "/repo" "/home").exitCode ≠ 0 :=
  c3_push_fail_no_remote (mkWorld "" 0 2 0) "/repo" "/home" (by decide) (by decide)

/-- C4 counterexample: in a run where the remote command exits 2, the tool's
own process exit code is 1 (the uncaught `StatusError` ends the interpreter
with status 1), not 2 — the failing command's exit code is not propagated. -/
theorem c4_counterexample :
    Event.exec "/repo" sshArgv ∈ (main (mkWorld "" 0 0 2) "/repo" "/home").trace ∧
    ((mkWorld "" 0 0 2).exec "/repo" sshArgv).2 = 2 ∧
    (main (mkWorld "" 0 0 2) "/repo" "/home").exitCode = 1 ∧
    (main (mkWorld "" 0 0 2) "/repo" "/home").exitCode ≠ 2 := by
  decide

/-- C4 (amended): in every run in which the remote-command-channel step is
invoked and exits nonzero, the tool's own final process exit code is 1 — a
nonzero status, but not in general the remote command's code — and the
remote command is invoked exactly once (no retry). -/
theorem c4_remote_fail_exit_one (w : World) (d c : String)
    (hinv : Event.exec d sshArgv ∈ (main w d c).trace)
    (hfail : (w.exec d sshArgv).2 ≠ 0) :
    (main w d c).exitCode = 1 ∧
    ((main w d c).trace.filter Event.isSsh).length = 1 := by
  obtain ⟨hok, hclean, hp⟩ := ssh_invoked_preconditions w d c hinv
  rw [main_eq_of_push_ok w d c hok hclean hp]
  exact ⟨by simp [hfail], rfl⟩

/-- Witness for the amended C4 at a concrete world where the remote command
exits 2. -/
theorem c4_remote_fail_exit_one_witness :
    (main (mkWorld "" 0 0 2) "/repo" "/home").exitCode = 1 ∧
    ((main (mkWorld "" 0 0 2) "/repo" "/home").trace.filter Event.isSsh).length = 1 :=
  c4_remote_fail_exit_one (mkWorld "" 0 0 2) "/repo" "/home" (by decide) (by decide)

/-- C5: when the status query succeeds with empty captured output and both
the push command and the remote command exit 0, the tool's final process
exit code is 0. -/
theorem c5_success_exit_zero (w : World) (d c : String)
    (hok : (w.exec d statusArgv).2 = 0)
    (hclean : rstripNewlines (w.exec d statusArgv).1 = "")
    (hp : (w.exec d pushArgv).2 = 0)
    (hr : (w.exec d sshArgv).2 = 0) :
    (main w d c).exitCode = 0 := by
  rw [main_eq_of_push_ok w d c hok hclean hp]
  simp [hr]

/-- Witness for C5 at a concrete world where everything succeeds. -/
theorem c5_success_exit_zero_witness :
    (main (mkWorld "" 0 0 0) "/repo" "/home").exitCode = 0 :=
  c5_success_exit_zero (mkWorld "" 0 0 0) "/repo" "/home"
    (by decide) (by decide) (by decide) (by decide)

/-- C6: in the Variant C script, when the cleanliness check passes, the
fetch succeeds and the range query `origin/master..HEAD` succeeds with
non-empty stripped output, the run prints "unpushed commits", exits with
code 1, and never opens the remote-command channel. -/
theorem c6_unpushed_commits_abort (w : World) (d c : String)
    (hok : (w.exec d statusArgv).2 = 0)
    (hclean : rstripNewlines (w.exec d statusArgv).1 = "")
    (hfetch : (w.exec d fetchArgv).2 = 0)
    (hlok : (w.exec d logRangeArgv).2 = 0)
    (hunpushed : rstripNewlines (w.exec d logRangeArgv).1 ≠ "") :
    (mainC w d c).output = ["unpushed commits"] ∧
    (mainC w d c).exitCode = 1 ∧
    ∀ e ∈ (mainC w d c).trace, e.isSsh = false := by
  have hm : mainC w d c =
      { trace := [Event.chdir d, Event.exec d statusArgv, Event.exec d fetchArgv,
          Event.exec d logRangeArgv],
        output := ["unpushed commits"], exitCode := 1 } := by
    simp [mainC, hok, hclean, hfetch, hlok, hunpushed]
  rw [hm]
  refine ⟨rfl, rfl, ?_⟩
  intro e he
  simp only [List.mem_cons, List.not_mem_nil, or_false] at he
  rcases he with rfl | rfl | rfl | rfl <;> rfl

/-- Witness for C6 at a concrete world with one unpushed commit listed. -/
theorem c6_unpushed_commits_abort_witness :
    (mainC (mkWorldC "" "abc123 some commit\n" 0) "/repo" "/home").output =
      ["unpushed commits"] ∧
    (mainC (mkWorldC "" "abc123 some commit\n" 0) "/repo" "/home").exitCode = 1 ∧
    ∀ e ∈ (mainC (mkWorldC "" "abc123 some commit\n" 0) "/repo" "/home").trace,
      e.isSsh = false :=
  c6_unpushed_commits_abort (mkWorldC "" "abc123 some commit\n" 0) "/repo" "/home"
    (by decide) (by decide) (by decide) (by decide) (by decide)

/-- C7: in every run, the trace starts with the single directory change, to
the script's own directory, and every later event is an external command
run in that directory — the working directory is set once, before any
external command, and never changed again. -/
theorem c7_chdir_once_before_commands (w : World) (d c : String) :
    ∃ rest, (main w d c).trace = Event.chdir d :: rest ∧
      ∀ e ∈ rest, ∃ a, e = Event.exec d a := by
  by_cases hok : (w.exec d statusArgv).2 = 0
  · by_cases hclean : rstripNewlines (w.exec d statusArgv).1 = ""
    · by_cases hp : (w.exec d pushArgv).2 = 0
      · rw [main_eq_of_push_ok w d c hok hclean hp]
        refine ⟨_, rfl, ?_⟩
        intro e he
        simp only [List.mem_cons, List.not_mem_nil, or_false] at he
        rcases he with rfl | rfl | rfl
        · exact ⟨statusArgv, rfl⟩
        · exact ⟨pushArgv, rfl⟩
        · exact ⟨sshArgv, rfl⟩
      · rw [main_eq_of_push_fail w d c hok hclean hp]
        refine ⟨_, rfl, ?_⟩
        intro e he
        simp only [List.mem_cons, List.not_mem_nil, or_false] at he
        rcases he with rfl | rfl
        · exact ⟨statusArgv, rfl⟩
        · exact ⟨pushArgv, rfl⟩
    · rw [main_eq_of_dirty w d c hok hclean]
      refine ⟨_, rfl, ?_⟩
      intro e he
      simp only [List.mem_cons, List.not_mem_nil, or_false] at he
      rcases he with rfl
      exact ⟨statusArgv, rfl⟩
  · rw [main_eq_of_status_fail w d c hok]
    refine ⟨_, rfl, ?_⟩
    intro e he
    simp only [List.mem_cons, List.not_mem_nil, or_false] at he
    rcases he with rfl
    exact ⟨statusArgv, rfl⟩

/-- C8: every run that reaches the remote-deploy step uses the argv
`ssh jacko@jacko.io <fixed command>`, where the fixed command chains, in
order, the change to the fixed remote directory, the fast-forward-only
pull, the dependency resync with caching disabled, and the release-mode
build-and-run step; that ssh invocation is the only one in the trace, and a
nonzero exit of the remote command makes the whole tool exit nonzero. -/
theorem c8_remote_fixed_command (w : World) (d c : String)
    (hinv : Event.exec d sshArgv ∈ (main w d c).trace) :
    sshArgv = ["ssh", "jacko@jacko.io",
      "cd /srv/jacko.io" ++ " && " ++ "git pull --ff-only" ++ " && " ++
        "peru sync --no-cache" ++ " && " ++ "(cd render_posts && cargo run --release)"] ∧
    (∀ e ∈ (main w d c).trace, e.isSsh = true → e = Event.exec d sshArgv) ∧
    ((main w d c).trace.filter Event.isSsh).length = 1 ∧
    ((w.exec d sshArgv).2 ≠ 0 → (main w d c).exitCode ≠ 0) := by
  obtain ⟨hok, hclean, hp⟩ := ssh_invoked_preconditions w d c hinv
  rw [main_eq_of_push_ok w d c hok hclean hp]
  refine ⟨by decide, ?_, rfl, ?_⟩
  · intro e he hssh
    simp only [List.mem_cons, List.not_mem_nil, or_false] at he
    rcases he with rfl | rfl | rfl | rfl
    · simp [Event.isSsh] at hssh
    · simp [Event.isSsh, statusArgv] at hssh
    · simp [Event.isSsh, pushArgv] at hssh
    · rfl
  · intro hfail
    simp [hfail]

/-- Witness for C8 at a concrete world where the remote command exits 2. -/
theorem c8_remote_fixed_command_witness :
    sshArgv = ["ssh", "jacko@jacko.io",
      "cd /srv/jacko.io" ++ " && " ++ "git pull --ff-only" ++ " && " ++
        "peru sync --no-cache" ++ " && " ++ "(cd render_posts && cargo run --release)"] ∧
    (∀ e ∈ (main (mkWorld "" 0 0 2) "/repo" "/home").trace, e.isSsh = true →
      e = Event.exec "/repo" sshArgv) ∧
    ((main (mkWorld "" 0 0 2) "/repo" "/home").trace.filter Event.isSsh).length = 1 ∧
    (((mkWorld "" 0 0 2).exec "/repo" sshArgv).2 ≠ 0 →
      (main (mkWorld "" 0 0 2) "/repo" "/home").exitCode ≠ 0) :=
  c8_remote_fixed_command (mkWorld "" 0 0 2) "/repo" "/home" (by decide)

/-- C9: two runs that differ only in the initial working directory of the
invoking process are indistinguishable — same trace, printed output and
exit code — because the script changes directory to its own location
before invoking any command. -/
theorem c9_initial_cwd_irrelevant (w : World) (d c1 c2 : String) :
    main w d c1 = main w d c2 := rfl

/-- C10: status output consisting only of newline characters is treated as
a clean tree: `duct`'s `read()` strips trailing newlines before the
emptiness test, so such a run prints no diagnostic and proceeds to the push
(and, when the push succeeds, to the deploy) instead of aborting. -/
theorem c10_trailing_newlines_clean (w : World) (d c : String)
    (hok : (w.exec d statusArgv).2 = 0)
    (hnl : ∀ ch ∈ (w.exec d statusArgv).1.data, ch = '\n') :
    rstripNewlines (w.exec d statusArgv).1 = "" ∧
    (main w d c).output = [] ∧
    Event.exec d pushArgv ∈ (main w d c).trace ∧
    ((w.exec d pushArgv).2 = 0 → Event.exec d sshArgv ∈ (main w d c).trace) := by
  have hclean : rstripNewlines (w.exec d statusArgv).1 = "" := by
    unfold rstripNewlines
    have hdrop : (w.exec d statusArgv).1.data.reverse.dropWhile
        (fun ch => ch == '\n') = [] := by
      rw [List.dropWhile_eq_nil_iff]
      intro x hx
      rw [List.mem_reverse] at hx
      simp [hnl x hx]
    rw [hdrop]
    rfl
  by_cases hp : (w.exec d pushArgv).2 = 0
  · rw [main_eq_of_push_ok w d c hok hclean hp]
    exact ⟨hclean, rfl, by simp, fun _ => by simp⟩
  · rw [main_eq_of_push_fail w d c hok hclean hp]
    exact ⟨hclean, rfl, by simp, fun h => absurd h hp⟩

/-- Witness for C10 at a concrete world whose status output is two
newlines. -/
theorem c10_trailing_newlines_clean_witness :
    rstripNewlines ((mkWorld "\n\n" 0 0 0).exec "/repo" statusArgv).1 = "" ∧
    (main (mkWorld "\n\n" 0 0 0) "/repo" "/home").output = [] ∧
    Event.exec "/repo" pushArgv ∈ (main (mkWorld "\n\n" 0 0 0) "/repo" "/home").trace ∧
    (((mkWorld "\n\n" 0 0 0).exec "/repo" pushArgv).2 = 0 →
      Event.exec "/repo" sshArgv ∈ (main (mkWorld "\n\n" 0 0 0) "/repo" "/home").trace) :=
  c10_trailing_newlines_clean (mkWorld "\n\n" 0 0 0) "/repo" "/home"
    (by decide) (by decide)

end Push
